import Mathlib

/-!
Shallow embedding of the Karpenter log parser engine
(`parser/parser.go` of LogParserForKarpenter).

A raw log line is seen by the Go code only through the results of a fixed
family of regular expressions: the top-level message capture and, per
message kind, one capture tuple per historical pattern variant.  We embed a
log line as exactly that family of capture results (`LogLine`).  The Go
maps `nodeclaimmap` and `k8snodenamemap` become functions into `Option`;
`time.Duration` becomes `Int` nanoseconds; `float64` seconds fields become
`Rat` (every value the program derives from whole-millisecond timestamps is
exactly representable).  Writes to `os.Stderr` become a list of `Diag`
values, one per `fmt.Fprintf` call site.
-/

namespace LP4K

/-- One diagnostic line printed to stderr; constructors correspond one to
one to the distinct `fmt.Fprintf(os.Stderr, ...)` format strings in
`ParseKarpenterLogs` (the file name and input line number arguments only
feed the printed text and are dropped). -/
inductive Diag where
  | patternMismatch (msg : String)
  | emptyNodeClaim (msg : String)
  | emptyK8sNodeName (msg : String)
  | emptyInitializedTime
  | emptyDeletedTime
  | noCorrespondingNodeClaim (k8snodename : String)
  | missingCreatedHint
deriving DecidableEq, Repr

/-- `Nodeclaimstruct` from parser.go.  String fields keep their Go order;
`time.Duration` fields are `Int` nanoseconds; the `.Seconds()` fields are
modelled as exact rationals. -/
structure Nodeclaimstruct where
  Createdtime            : String
  Nodepool               : String
  Instancetypes          : String
  Launchedtime           : String
  Providerid             : String
  Instancetype           : String
  Zone                   : String
  Capacitytype           : String
  Registeredtime         : String
  K8snodename            : String
  Initializedtime        : String
  Nodereadytime          : Int
  Nodereadytimesec       : Rat
  Disruptiontime         : String
  Disruptionreason       : String
  Disruptiondecision     : String
  Disruptednodecount     : String
  Replacementnodecount   : String
  Disruptedpodcount      : String
  Annotationtime         : String
  Annotation             : String
  Tainttime              : String
  Taint                  : String
  Interruptiontime       : String
  Interruptionkind       : String
  Deletedtime            : String
  Nodeterminationtime    : Int
  Nodeterminationtimesec : Rat
  Nodelifecycletime      : Int
  Nodelifecycletimesec   : Rat
  Initialized            : Bool
  Deleted                : Bool
deriving DecidableEq, Repr

/-- The two shared maps: `nodeclaimmap` (the registry) and
`k8snodenamemap` (the secondary index from K8s node name to nodeclaim). -/
structure ParserState where
  ncmap : String → Option Nodeclaimstruct
  k8snm : String → Option String

/-- A log line as the parser observes it: the `"message":"..."` capture
and, for each message kind and pattern variant, the capture tuple of that
variant (in the capture-group order of the Go pattern, whole-line group 0
dropped), or `none` when the pattern does not match the line. -/
structure LogLine where
  message : Option String := none
  /-- created: time, NodePool name, NodeClaim name, instance-types. -/
  createdCaps : Option (String × String × String × String) := none
  /-- launched: time, NodeClaim, provider-id, instance-type, zone, capacity-type. -/
  launchedCaps : Option (String × String × String × String × String × String) := none
  /-- registered: time, NodeClaim, Node name. -/
  registeredCaps : Option (String × String × String) := none
  /-- initialized: time, NodeClaim. -/
  initializedCaps : Option (String × String) := none
  /-- disrupting: time, reason, decision, disrupted-node-count,
  replacement-node-count, pod-count, NodeClaim. -/
  disruptingCaps : Option (String × String × String × String × String × String × String) := none
  /-- interruption: time, messageKind, NodeClaim. -/
  interruptionCaps : Option (String × String × String) := none
  /-- annotated: time, NodeClaim, annotation key, annotation value. -/
  annotatedCaps : Option (String × String × String × String) := none
  /-- tainted, Karpenter 1.1.x+ variant: time, NodeClaim, taint.Key,
  taint.Value, taint.Effect. -/
  taintedV11Caps : Option (String × String × String × String × String) := none
  /-- tainted, Karpenter 1.0.x variant: time, Node name, taint.Key,
  taint.Value, taint.Effect. -/
  taintedV10Caps : Option (String × String × String × String × String) := none
  /-- tainted, Karpenter 0.37.x variant: time, Node name. -/
  taintedV037Caps : Option (String × String) := none
  /-- deleted: time, NodeClaim. -/
  deletedCaps : Option (String × String) := none

/-- The state effect of one `ParseKarpenterLogs` call: at most one registry
write, at most one secondary-index write, and the diagnostics printed.
Every branch of the Go switch writes `(*nodeclaimmap)[nodeclaim]` for a
single key (possibly several times with the last value winning) and at
most one `(*k8snodenamemap)[val]` entry, so this shape is exact. -/
structure Effect where
  ncWrite : Option (String × Nodeclaimstruct) := none
  nmWrite : Option (String × String) := none
  diags : List Diag := []

/-- Apply an `Effect` to the two maps. -/
def applyEffect (st : ParserState) (e : Effect) : ParserState where
  ncmap := match e.ncWrite with
    | some kv => fun x => if x = kv.1 then some kv.2 else st.ncmap x
    | none => st.ncmap
  k8snm := match e.nmWrite with
    | some kv => fun x => if x = kv.1 then some kv.2 else st.k8snm x
    | none => st.k8snm

/-- `strings.NewReplacer(", ", "|", " ", "", "(s)", "s").Replace`: scan
left to right, at each position try the patterns in argument order,
replace without overlap. -/
def replaceGo : List Char → List Char
  | [] => []
  | ',' :: ' ' :: rest => '|' :: replaceGo rest
  | ' ' :: rest => replaceGo rest
  | '(' :: 's' :: ')' :: rest => 's' :: replaceGo rest
  | c :: rest => c :: replaceGo rest

/-- Does the character list start with `" and "`. -/
def startsWithAnd : List Char → Bool
  | ' ' :: 'a' :: 'n' :: 'd' :: ' ' :: _ => true
  | _ => false

/-- Index accumulator for `lastIndexOfAnd`. -/
def lastIndexOfAndAux : List Char → Nat → Option Nat → Option Nat
  | [], _, acc => acc
  | c :: rest, i, acc =>
      lastIndexOfAndAux rest (i + 1)
        (if startsWithAnd (c :: rest) then some i else acc)

/-- `strings.LastIndex(val, " and ")` (the capture text is ASCII, so the
character index equals the Go byte index); `none` models the Go result -1,
which coincides with `!strings.Contains(val, " and ")`. -/
def lastIndexOfAnd (l : List Char) : Option Nat :=
  lastIndexOfAndAux l 0 none

/-- The instance-types normalisation of the "created nodeclaim" branch:
split at the last `" and "` if present, apply the replacer to both halves
and join with `"|"`, else apply the replacer to the whole capture. -/
def normalizeInstanceTypes (val : String) : String :=
  let l := val.data
  match lastIndexOfAnd l with
  | some position =>
      String.mk (replaceGo (l.take position)) ++ "|" ++ String.mk (replaceGo (l.drop position))
  | none => String.mk (replaceGo l)

/-- `strings.Split(val, "/")` last element: the provider-id derivation of
the "launched nodeclaim" branch. -/
def lastSegment (s : String) : String :=
  (s.splitOn "/").getLastD ""

/-- Maximum `time.Duration` (`1<<63 - 1` nanoseconds). -/
def maxDuration : Int := 9223372036854775807

/-- Minimum `time.Duration`. -/
def minDuration : Int := -9223372036854775808

/-- `t2.Sub(t1)` on `time.Time`: the difference clamped to the
`time.Duration` range. -/
def subClamped (t2 t1 : Int) : Int :=
  let d := t2 - t1
  if maxDuration < d then maxDuration
  else if d < minDuration then minDuration
  else d

/-- `Duration.Seconds()` as an exact rational. -/
def durSeconds (d : Int) : Rat :=
  (d : Rat) / 1000000000

/-- `t, _ := datetime.Parse(s, time.UTC)` with the error ignored: a failed
parse leaves `t` at the zero time, the origin of the modelled time line. -/
def parseT (dtParse : String → Option Int) (s : String) : Int :=
  (dtParse s).getD 0

/-- The fresh record installed by the "created nodeclaim" branch (the Go
composite literal; `Interruptiontime` is absent from that literal and thus
zero valued like every other non-listed field). -/
def freshRecord (createdtime nodepool instancetypes : String) : Nodeclaimstruct where
  Createdtime := createdtime
  Nodepool := nodepool
  Instancetypes := instancetypes
  Launchedtime := ""
  Providerid := ""
  Instancetype := ""
  Zone := ""
  Capacitytype := ""
  Registeredtime := ""
  K8snodename := ""
  Initializedtime := ""
  Nodereadytime := 0
  Nodereadytimesec := 0
  Disruptiontime := ""
  Disruptionreason := ""
  Disruptiondecision := ""
  Disruptednodecount := ""
  Replacementnodecount := ""
  Disruptedpodcount := ""
  Annotationtime := ""
  Annotation := ""
  Tainttime := ""
  Taint := ""
  Interruptiontime := ""
  Interruptionkind := ""
  Deletedtime := ""
  Nodeterminationtime := 0
  Nodeterminationtimesec := 0
  Nodelifecycletime := 0
  Nodelifecycletimesec := 0
  Initialized := false
  Deleted := false

/-- The "created nodeclaim" case: unconditionally install a fresh record
under the captured NodeClaim name (there is no empty-name check in this
branch). -/
def handleCreated (caps : Option (String × String × String × String)) : Effect :=
  match caps with
  | some (createdtime, nodepool, nodeclaim, its) =>
      { ncWrite := some (nodeclaim, freshRecord createdtime nodepool (normalizeInstanceTypes its)) }
  | none => { diags := [.patternMismatch "created nodeclaim"] }

/-- The "launched nodeclaim" case. -/
def handleLaunched (st : ParserState)
    (caps : Option (String × String × String × String × String × String)) : Effect :=
  match caps with
  | some (t, nodeclaim, pid, ity, zone, cty) =>
      if nodeclaim = "" then { diags := [.emptyNodeClaim "launched nodeclaim"] }
      else
        match st.ncmap nodeclaim with
        | some entry =>
            { ncWrite := some (nodeclaim,
                { entry with Launchedtime := t, Providerid := lastSegment pid,
                             Instancetype := ity, Zone := zone, Capacitytype := cty }) }
        | none => {}
  | none => { diags := [.patternMismatch "launched nodeclaim"] }

/-- The "registered nodeclaim" case; also inserts the secondary-index
entry node name to nodeclaim. -/
def handleRegistered (st : ParserState)
    (caps : Option (String × String × String)) : Effect :=
  match caps with
  | some (t, nodeclaim, nodename) =>
      if nodeclaim = "" then { diags := [.emptyNodeClaim "registered nodeclaim"] }
      else
        match st.ncmap nodeclaim with
        | some entry =>
            { ncWrite := some (nodeclaim,
                { entry with Registeredtime := t, K8snodename := nodename }),
              nmWrite := some (nodename, nodeclaim) }
        | none => {}
  | none => { diags := [.patternMismatch "registered nodeclaim"] }

/-- The "initialized nodeclaim" case: `Initializedtime` is assigned before
the emptiness test (Go if-with-assignment); the ready duration is computed
only when `Createdtime` is non-empty; `Initialized` is set in every
reachable path. -/
def handleInitialized (dtParse : String → Option Int) (st : ParserState)
    (caps : Option (String × String)) : Effect :=
  match caps with
  | some (t, nodeclaim) =>
      if nodeclaim = "" then { diags := [.emptyNodeClaim "initialized nodeclaim"] }
      else
        match st.ncmap nodeclaim with
        | some entry =>
            if t = "" then
              { ncWrite := some (nodeclaim,
                  { entry with Initializedtime := t, Initialized := true }),
                diags := [.emptyInitializedTime] }
            else
              let entry1 :=
                if entry.Createdtime = "" then { entry with Initializedtime := t }
                else
                  let d := subClamped (parseT dtParse t) (parseT dtParse entry.Createdtime)
                  { entry with Initializedtime := t,
                               Nodereadytime := d, Nodereadytimesec := durSeconds d }
              { ncWrite := some (nodeclaim, { entry1 with Initialized := true }) }
        | none => {}
  | none => { diags := [.patternMismatch "initialized nodeclaim"] }

/-- The "disrupting node(s)" case: the six disruption fields are
overwritten wholesale. -/
def handleDisrupting (st : ParserState)
    (caps : Option (String × String × String × String × String × String × String)) : Effect :=
  match caps with
  | some (t, reason, decision, dnc, rnc, pc, nodeclaim) =>
      if nodeclaim = "" then { diags := [.emptyNodeClaim "disrupting node(s)"] }
      else
        match st.ncmap nodeclaim with
        | some entry =>
            { ncWrite := some (nodeclaim,
                { entry with Disruptiontime := t, Disruptionreason := reason,
                             Disruptiondecision := decision, Disruptednodecount := dnc,
                             Replacementnodecount := rnc, Disruptedpodcount := pc }) }
        | none => {}
  | none => { diags := [.patternMismatch "disrupting node(s)"] }

/-- The "initiating delete from interruption message" case. -/
def handleInterruption (st : ParserState)
    (caps : Option (String × String × String)) : Effect :=
  match caps with
  | some (t, kind, nodeclaim) =>
      if nodeclaim = "" then
        { diags := [.emptyNodeClaim "initiating delete from interruption message"] }
      else
        match st.ncmap nodeclaim with
        | some entry =>
            { ncWrite := some (nodeclaim,
                { entry with Interruptiontime := t, Interruptionkind := kind }) }
        | none => {}
  | none => { diags := [.patternMismatch "initiating delete from interruption message"] }

/-- The "annotated nodeclaim" case: loop index 2 assigns the key over the
stored composite and index 3 appends the value, so the stored annotation
becomes exactly `key:value` of this event. -/
def handleAnnotated (st : ParserState)
    (caps : Option (String × String × String × String)) : Effect :=
  match caps with
  | some (t, nodeclaim, key, val) =>
      if nodeclaim = "" then { diags := [.emptyNodeClaim "annotated nodeclaim"] }
      else
        match st.ncmap nodeclaim with
        | some entry =>
            { ncWrite := some (nodeclaim,
                { entry with Annotationtime := t, Annotation := key ++ ":" ++ val }) }
        | none => {}
  | none => { diags := [.patternMismatch "annotated nodeclaim"] }

/-- The "tainted node" case with its three pattern tiers (Karpenter 1.1.x,
1.0.x, 0.37.x).  Tier 1 additionally prints one diagnostic per empty
capture at loop index 0, 2 or 4 (its format text names the K8s node name).
Tier 2 reports a missing index entry but is silent on a missing registry
record; tier 3 is silent on a missing index entry but reports a missing
registry record. -/
def handleTainted (st : ParserState) (line : LogLine) : Effect :=
  match line.taintedV11Caps with
  | some (t, nodeclaim, key, val, effect) =>
      if nodeclaim = "" then { diags := [.emptyNodeClaim "tainted node"] }
      else
        match st.ncmap nodeclaim with
        | some entry =>
            { ncWrite := some (nodeclaim,
                { entry with Tainttime := t, Taint := key ++ ":" ++ val ++ ":" ++ effect }),
              diags :=
                (if t = "" then [Diag.emptyK8sNodeName "tainted node"] else []) ++
                (if key = "" then [Diag.emptyK8sNodeName "tainted node"] else []) ++
                (if effect = "" then [Diag.emptyK8sNodeName "tainted node"] else []) }
        | none => {}
  | none =>
    match line.taintedV10Caps with
    | some (t, k8snodename, key, val, effect) =>
        if k8snodename = "" then { diags := [.emptyK8sNodeName "tainted node"] }
        else
          match st.k8snm k8snodename with
          | some nodeclaim =>
              match st.ncmap nodeclaim with
              | some entry =>
                  { ncWrite := some (nodeclaim,
                      { entry with Tainttime := t,
                                   Taint := key ++ ":" ++ val ++ ":" ++ effect }) }
              | none => {}
          | none => { diags := [.noCorrespondingNodeClaim k8snodename, .missingCreatedHint] }
    | none =>
      match line.taintedV037Caps with
      | some (t, k8snodename) =>
          if k8snodename = "" then { diags := [.emptyK8sNodeName "tainted node"] }
          else
            match st.k8snm k8snodename with
            | some nodeclaim =>
                match st.ncmap nodeclaim with
                | some entry => { ncWrite := some (nodeclaim, { entry with Tainttime := t }) }
                | none =>
                    { diags := [.noCorrespondingNodeClaim k8snodename, .missingCreatedHint] }
            | none => {}
      | none => { diags := [.patternMismatch "tainted node"] }

/-- The "deleted nodeclaim" case: `Deletedtime` is assigned before the
emptiness test; lifecycle and termination durations are computed
independently, each only when its start endpoint is non-empty; `Deleted`
is set in every reachable path. -/
def handleDeleted (dtParse : String → Option Int) (st : ParserState)
    (caps : Option (String × String)) : Effect :=
  match caps with
  | some (t, nodeclaim) =>
      if nodeclaim = "" then { diags := [.emptyNodeClaim "deleted nodeclaim"] }
      else
        match st.ncmap nodeclaim with
        | some entry =>
            if t = "" then
              { ncWrite := some (nodeclaim,
                  { entry with Deletedtime := t, Deleted := true }),
                diags := [.emptyDeletedTime] }
            else
              let entry1 := { entry with Deletedtime := t }
              let entry2 :=
                if entry.Createdtime = "" then entry1
                else
                  let d := subClamped (parseT dtParse t) (parseT dtParse entry.Createdtime)
                  { entry1 with Nodelifecycletime := d, Nodelifecycletimesec := durSeconds d }
              let entry3 :=
                if entry.Annotationtime = "" then entry2
                else
                  let d := subClamped (parseT dtParse t) (parseT dtParse entry.Annotationtime)
                  { entry2 with Nodeterminationtime := d, Nodeterminationtimesec := durSeconds d }
              { ncWrite := some (nodeclaim, { entry3 with Deleted := true }) }
        | none => {}
  | none => { diags := [.patternMismatch "deleted nodeclaim"] }

/-- The switch of `ParseKarpenterLogs` over the captured message; an
unrecognised or absent message leaves the maps untouched with no
diagnostic. -/
def effectFor (dtParse : String → Option Int) (st : ParserState) (line : LogLine) : Effect :=
  match line.message with
  | none => {}
  | some msg =>
      if msg = "created nodeclaim" then handleCreated line.createdCaps
      else if msg = "launched nodeclaim" then handleLaunched st line.launchedCaps
      else if msg = "registered nodeclaim" then handleRegistered st line.registeredCaps
      else if msg = "initialized nodeclaim" then handleInitialized dtParse st line.initializedCaps
      else if msg = "disrupting node(s)" then handleDisrupting st line.disruptingCaps
      else if msg = "initiating delete from interruption message" then
        handleInterruption st line.interruptionCaps
      else if msg = "annotated nodeclaim" then handleAnnotated st line.annotatedCaps
      else if msg = "tainted node" then handleTainted st line
      else if msg = "deleted nodeclaim" then handleDeleted dtParse st line.deletedCaps
      else {}

/-- `ParseKarpenterLogs`: fold one log line into the two maps, returning
the new maps and the diagnostics printed by this call.  `dtParse` is the
external `datetime.Parse` collaborator. -/
def ParseKarpenterLogs (dtParse : String → Option Int) (line : LogLine)
    (st : ParserState) : ParserState × List Diag :=
  let e := effectFor dtParse st line
  (applyEffect st e, e.diags)

/-- `keyvalue` from parser.go: one registry entry for the sorting slice. -/
structure keyvalue where
  key : String
  value : Nodeclaimstruct
deriving DecidableEq, Repr

/-- Insert an element into an already sorted slice, after every element it
is not strictly below: the placement `sort.SliceStable` gives a late
arrival with the less function of `sortResult`. -/
def insertOrd (x : keyvalue) : List keyvalue → List keyvalue
  | [] => [x]
  | y :: ys =>
      if x.value.Createdtime < y.value.Createdtime then x :: y :: ys
      else y :: insertOrd x ys

/-- `sortResult`: the Go function ranges over the registry map (an order
the language leaves unspecified), collects the entries into a slice and
runs `sort.SliceStable` with `Createdtime` string comparison.  We model it
on the already ranged slice; the stable sort itself is realised as a
left-to-right stable insertion sort, which meets the `SliceStable`
contract exactly. -/
def sortResult (s : List keyvalue) : List keyvalue :=
  s.foldl (fun acc x => insertOrd x acc) []

/-- `ConvertResult`: one snapshot entry per record, keyed by nodeclaim,
value the `fmt.Sprintf` rendering of the record.  The rendering itself is
the external `fmt` collaborator, passed as `serialize`. -/
def ConvertResult (serialize : Nodeclaimstruct → String) (s : List keyvalue) :
    List (String × String) :=
  (sortResult s).map fun v => (v.key, serialize v.value)

/-- `Populatenodeclaimmap`: the Go body prints the reflected field table
and each ConfigMap entry but the single statement that would write the
record into the map, `(*nodeclaimmap)[key] = nodeclaimstruct`, is
commented out, so the registry passed in is returned unchanged. -/
def Populatenodeclaimmap (nodeclaimmap : String → Option Nodeclaimstruct)
    (cmdata : List (String × String)) : String → Option Nodeclaimstruct :=
  nodeclaimmap

/-- Decimal digit value of a character. -/
def digitVal (c : Char) : Option Nat :=
  if '0' ≤ c ∧ c ≤ '9' then some (c.toNat - 48) else none

/-- Two-digit decimal number. -/
def num2 (a b : Char) : Option Nat := do
  let x ← digitVal a
  let y ← digitVal b
  pure (x * 10 + y)

/-- Three-digit decimal number. -/
def num3 (a b c : Char) : Option Nat := do
  let x ← digitVal a
  let y ← num2 b c
  pure (x * 100 + y)

/-- Four-digit decimal number. -/
def num4 (a b c d : Char) : Option Nat := do
  let x ← num2 a b
  let y ← num2 c d
  pure (x * 100 + y)

/-- Civil days since 0000-03-01 for a Gregorian date with year at least 1
(the standard era decomposition; 1970-01-01 maps to 719468). -/
def daysFromCivil (y m d : Nat) : Nat :=
  let yAdj := if m ≤ 2 then y - 1 else y
  let era := yAdj / 400
  let yoe := yAdj % 400
  let mp := (m + 9) % 12
  let doy := (153 * mp + 2) / 5 + d - 1
  let doe := yoe * 365 + yoe / 4 - yoe / 100 + doy
  era * 146097 + doe

/-- Modelled from the spec: the external permissive timestamp parser
(section 4.3, the `datetime` dependency, whose source is outside this
repository), restricted to the UTC millisecond and whole-second RFC 3339
shapes the Karpenter log emits.  A successful parse returns nanoseconds
since the model origin; any other string fails. -/
def rfc3339ms (s : String) : Option Int :=
  match s.data with
  | [y1, y2, y3, y4, '-', o1, o2, '-', d1, d2, 'T',
     h1, h2, ':', i1, i2, ':', s1, s2, '.', f1, f2, f3, 'Z'] => do
      let y ← num4 y1 y2 y3 y4
      let mo ← num2 o1 o2
      let da ← num2 d1 d2
      let h ← num2 h1 h2
      let mi ← num2 i1 i2
      let se ← num2 s1 s2
      let ms ← num3 f1 f2 f3
      if 1 ≤ y ∧ 1 ≤ mo ∧ mo ≤ 12 ∧ 1 ≤ da ∧ da ≤ 31 then
        pure (Int.ofNat (((daysFromCivil y mo da * 86400 + h * 3600 + mi * 60 + se) * 1000 + ms) * 1000000))
      else none
  | [y1, y2, y3, y4, '-', o1, o2, '-', d1, d2, 'T',
     h1, h2, ':', i1, i2, ':', s1, s2, 'Z'] => do
      let y ← num4 y1 y2 y3 y4
      let mo ← num2 o1 o2
      let da ← num2 d1 d2
      let h ← num2 h1 h2
      let mi ← num2 i1 i2
      let se ← num2 s1 s2
      if 1 ≤ y ∧ 1 ≤ mo ∧ mo ≤ 12 ∧ 1 ≤ da ∧ da ≤ 31 then
        pure (Int.ofNat ((daysFromCivil y mo da * 86400 + h * 3600 + mi * 60 + se) * 1000000000))
      else none
  | _ => none

/-- Both maps empty: the state at program start. -/
def emptyState : ParserState where
  ncmap := fun _ => none
  k8snm := fun _ => none

/-- The line is of a message kind that requires an existing record and its
nodeclaim cannot be resolved: the captured nodeclaim name is non-empty but
absent from the registry, or (tainted tiers 2 and 3) the captured node
name is non-empty and either absent from the secondary index or resolving
to a nodeclaim absent from the registry. -/
def unresolvedRequired (st : ParserState) (line : LogLine) : Bool :=
  match line.message with
  | none => false
  | some msg =>
      if msg = "launched nodeclaim" then
        match line.launchedCaps with
        | some (_, nodeclaim, _, _, _, _) => nodeclaim != "" && (st.ncmap nodeclaim).isNone
        | none => false
      else if msg = "registered nodeclaim" then
        match line.registeredCaps with
        | some (_, nodeclaim, _) => nodeclaim != "" && (st.ncmap nodeclaim).isNone
        | none => false
      else if msg = "initialized nodeclaim" then
        match line.initializedCaps with
        | some (_, nodeclaim) => nodeclaim != "" && (st.ncmap nodeclaim).isNone
        | none => false
      else if msg = "disrupting node(s)" then
        match line.disruptingCaps with
        | some (_, _, _, _, _, _, nodeclaim) => nodeclaim != "" && (st.ncmap nodeclaim).isNone
        | none => false
      else if msg = "initiating delete from interruption message" then
        match line.interruptionCaps with
        | some (_, _, nodeclaim) => nodeclaim != "" && (st.ncmap nodeclaim).isNone
        | none => false
      else if msg = "annotated nodeclaim" then
        match line.annotatedCaps with
        | some (_, nodeclaim, _, _) => nodeclaim != "" && (st.ncmap nodeclaim).isNone
        | none => false
      else if msg = "tainted node" then
        match line.taintedV11Caps with
        | some (_, nodeclaim, _, _, _) => nodeclaim != "" && (st.ncmap nodeclaim).isNone
        | none =>
          match line.taintedV10Caps with
          | some (_, k8snodename, _, _, _) =>
              k8snodename != "" &&
                (match st.k8snm k8snodename with
                 | some nodeclaim => (st.ncmap nodeclaim).isNone
                 | none => true)
          | none =>
            match line.taintedV037Caps with
            | some (_, k8snodename) =>
                k8snodename != "" &&
                  (match st.k8snm k8snodename with
                   | some nodeclaim => (st.ncmap nodeclaim).isNone
                   | none => true)
            | none => false
      else if msg = "deleted nodeclaim" then
        match line.deletedCaps with
        | some (_, nodeclaim) => nodeclaim != "" && (st.ncmap nodeclaim).isNone
        | none => false
      else false

theorem parse_fst (dtParse : String → Option Int) (line : LogLine) (st : ParserState) :
    (ParseKarpenterLogs dtParse line st).1 = applyEffect st (effectFor dtParse st line) := rfl

theorem parse_snd (dtParse : String → Option Int) (line : LogLine) (st : ParserState) :
    (ParseKarpenterLogs dtParse line st).2 = (effectFor dtParse st line).diags := rfl

theorem applyEffect_ncmap_none (st : ParserState) (e : Effect) (h : e.ncWrite = none) :
    (applyEffect st e).ncmap = st.ncmap := by
  unfold applyEffect
  rw [h]

theorem applyEffect_ncmap_some (st : ParserState) (e : Effect) (kv : String × Nodeclaimstruct)
    (h : e.ncWrite = some kv) :
    (applyEffect st e).ncmap = fun x => if x = kv.1 then some kv.2 else st.ncmap x := by
  unfold applyEffect
  rw [h]

theorem applyEffect_k8snm_none (st : ParserState) (e : Effect) (h : e.nmWrite = none) :
    (applyEffect st e).k8snm = st.k8snm := by
  unfold applyEffect
  rw [h]

theorem applyEffect_k8snm_some (st : ParserState) (e : Effect) (kv : String × String)
    (h : e.nmWrite = some kv) :
    (applyEffect st e).k8snm = fun x => if x = kv.1 then some kv.2 else st.k8snm x := by
  unfold applyEffect
  rw [h]

theorem applyEffect_no_writes (st : ParserState) (e : Effect)
    (h1 : e.ncWrite = none) (h2 : e.nmWrite = none) : applyEffect st e = st := by
  unfold applyEffect
  rw [h1, h2]

theorem effectFor_no_message (dtParse : String → Option Int) (st : ParserState) (line : LogLine)
    (h : line.message = none) : effectFor dtParse st line = {} := by
  unfold effectFor
  rw [h]

theorem effectFor_created (dtParse : String → Option Int) (st : ParserState) (line : LogLine)
    (h : line.message = some "created nodeclaim") :
    effectFor dtParse st line = handleCreated line.createdCaps := by
  unfold effectFor
  rw [h]
  rfl

theorem effectFor_launched (dtParse : String → Option Int) (st : ParserState) (line : LogLine)
    (h : line.message = some "launched nodeclaim") :
    effectFor dtParse st line = handleLaunched st line.launchedCaps := by
  unfold effectFor
  rw [h]
  rfl

theorem effectFor_registered (dtParse : String → Option Int) (st : ParserState) (line : LogLine)
    (h : line.message = some "registered nodeclaim") :
    effectFor dtParse st line = handleRegistered st line.registeredCaps := by
  unfold effectFor
  rw [h]
  rfl

theorem effectFor_initialized (dtParse : String → Option Int) (st : ParserState) (line : LogLine)
    (h : line.message = some "initialized nodeclaim") :
    effectFor dtParse st line = handleInitialized dtParse st line.initializedCaps := by
  unfold effectFor
  rw [h]
  rfl

theorem effectFor_disrupting (dtParse : String → Option Int) (st : ParserState) (line : LogLine)
    (h : line.message = some "disrupting node(s)") :
    effectFor dtParse st line = handleDisrupting st line.disruptingCaps := by
  unfold effectFor
  rw [h]
  rfl

theorem effectFor_interruption (dtParse : String → Option Int) (st : ParserState) (line : LogLine)
    (h : line.message = some "initiating delete from interruption message") :
    effectFor dtParse st line = handleInterruption st line.interruptionCaps := by
  unfold effectFor
  rw [h]
  rfl

theorem effectFor_annotated (dtParse : String → Option Int) (st : ParserState) (line : LogLine)
    (h : line.message = some "annotated nodeclaim") :
    effectFor dtParse st line = handleAnnotated st line.annotatedCaps := by
  unfold effectFor
  rw [h]
  rfl

theorem effectFor_tainted (dtParse : String → Option Int) (st : ParserState) (line : LogLine)
    (h : line.message = some "tainted node") :
    effectFor dtParse st line = handleTainted st line := by
  unfold effectFor
  rw [h]
  rfl

theorem effectFor_deleted (dtParse : String → Option Int) (st : ParserState) (line : LogLine)
    (h : line.message = some "deleted nodeclaim") :
    effectFor dtParse st line = handleDeleted dtParse st line.deletedCaps := by
  unfold effectFor
  rw [h]
  rfl

theorem handleCreated_nmWrite (caps) : (handleCreated caps).nmWrite = none := by
  unfold handleCreated
  repeat' split
  all_goals rfl

theorem handleLaunched_nmWrite (st caps) : (handleLaunched st caps).nmWrite = none := by
  unfold handleLaunched
  repeat' split
  all_goals rfl

theorem handleInitialized_nmWrite (dtParse st caps) :
    (handleInitialized dtParse st caps).nmWrite = none := by
  unfold handleInitialized
  repeat' split
  all_goals rfl

theorem handleDisrupting_nmWrite (st caps) : (handleDisrupting st caps).nmWrite = none := by
  unfold handleDisrupting
  repeat' split
  all_goals rfl

theorem handleInterruption_nmWrite (st caps) : (handleInterruption st caps).nmWrite = none := by
  unfold handleInterruption
  repeat' split
  all_goals rfl

theorem handleAnnotated_nmWrite (st caps) : (handleAnnotated st caps).nmWrite = none := by
  unfold handleAnnotated
  repeat' split
  all_goals rfl

theorem handleTainted_nmWrite (st line) : (handleTainted st line).nmWrite = none := by
  unfold handleTainted
  repeat' split
  all_goals rfl

theorem handleDeleted_nmWrite (dtParse st caps) :
    (handleDeleted dtParse st caps).nmWrite = none := by
  unfold handleDeleted
  repeat' split
  all_goals rfl

theorem effect_nmWrite_none (dtParse : String → Option Int) (st : ParserState) (line : LogLine)
    (h : line.message ≠ some "registered nodeclaim") :
    (effectFor dtParse st line).nmWrite = none := by
  cases hm : line.message with
  | none => rw [effectFor_no_message dtParse st line hm]
  | some msg =>
      rw [hm] at h
      unfold effectFor
      rw [hm]
      dsimp only
      split_ifs with h1 h2 h3 h4 h5 h6 h7 h8 h9
      · exact handleCreated_nmWrite _
      · exact handleLaunched_nmWrite _ _
      · exact absurd (by rw [h3]) h
      · exact handleInitialized_nmWrite _ _ _
      · exact handleDisrupting_nmWrite _ _
      · exact handleInterruption_nmWrite _ _
      · exact handleAnnotated_nmWrite _ _
      · exact handleTainted_nmWrite _ _
      · exact handleDeleted_nmWrite _ _ _
      · rfl

theorem handleLaunched_ncWrite_existing (st caps k v)
    (h : (handleLaunched st caps).ncWrite = some (k, v)) : (st.ncmap k).isSome := by
  unfold handleLaunched at h
  repeat' split at h
  all_goals simp_all

theorem handleRegistered_ncWrite_existing (st caps k v)
    (h : (handleRegistered st caps).ncWrite = some (k, v)) : (st.ncmap k).isSome := by
  unfold handleRegistered at h
  repeat' split at h
  all_goals simp_all

theorem handleInitialized_ncWrite_existing (dtParse st caps k v)
    (h : (handleInitialized dtParse st caps).ncWrite = some (k, v)) : (st.ncmap k).isSome := by
  unfold handleInitialized at h
  repeat' split at h
  all_goals simp_all

theorem handleDisrupting_ncWrite_existing (st caps k v)
    (h : (handleDisrupting st caps).ncWrite = some (k, v)) : (st.ncmap k).isSome := by
  unfold handleDisrupting at h
  repeat' split at h
  all_goals simp_all

theorem handleInterruption_ncWrite_existing (st caps k v)
    (h : (handleInterruption st caps).ncWrite = some (k, v)) : (st.ncmap k).isSome := by
  unfold handleInterruption at h
  repeat' split at h
  all_goals simp_all

theorem handleAnnotated_ncWrite_existing (st caps k v)
    (h : (handleAnnotated st caps).ncWrite = some (k, v)) : (st.ncmap k).isSome := by
  unfold handleAnnotated at h
  repeat' split at h
  all_goals simp_all

theorem handleTainted_ncWrite_existing (st line k v)
    (h : (handleTainted st line).ncWrite = some (k, v)) : (st.ncmap k).isSome := by
  unfold handleTainted at h
  repeat' split at h
  all_goals simp_all

theorem handleDeleted_ncWrite_existing (dtParse st caps k v)
    (h : (handleDeleted dtParse st caps).ncWrite = some (k, v)) : (st.ncmap k).isSome := by
  unfold handleDeleted at h
  repeat' split at h
  all_goals simp_all

theorem effect_ncWrite_existing (dtParse : String → Option Int) (st : ParserState) (line : LogLine)
    (k : String) (v : Nodeclaimstruct)
    (hm : line.message ≠ some "created nodeclaim")
    (h : (effectFor dtParse st line).ncWrite = some (k, v)) : (st.ncmap k).isSome := by
  cases hmsg : line.message with
  | none =>
      rw [effectFor_no_message dtParse st line hmsg] at h
      cases h
  | some msg =>
      rw [hmsg] at hm
      unfold effectFor at h
      rw [hmsg] at h
      dsimp only at h
      split_ifs at h with h1 h2 h3 h4 h5 h6 h7 h8 h9
      · exact absurd (by rw [h1]) hm
      · exact handleLaunched_ncWrite_existing _ _ _ _ h
      · exact handleRegistered_ncWrite_existing _ _ _ _ h
      · exact handleInitialized_ncWrite_existing _ _ _ _ _ h
      · exact handleDisrupting_ncWrite_existing _ _ _ _ h
      · exact handleInterruption_ncWrite_existing _ _ _ _ h
      · exact handleAnnotated_ncWrite_existing _ _ _ _ h
      · exact handleTainted_ncWrite_existing _ _ _ _ h
      · exact handleDeleted_ncWrite_existing _ _ _ _ _ h

/-- C9: one `ParseKarpenterLogs` call touches at most one registry key and
at most one secondary-index key, and the secondary index is written only
by a "registered nodeclaim" line; every other entry of both maps is
returned unchanged. -/
theorem parse_frame_single_write (dtParse : String → Option Int) (line : LogLine)
    (st : ParserState) :
    ∃ id nm,
      (∀ k, k ≠ id → (ParseKarpenterLogs dtParse line st).1.ncmap k = st.ncmap k) ∧
      (∀ n, n ≠ nm → (ParseKarpenterLogs dtParse line st).1.k8snm n = st.k8snm n) ∧
      (line.message ≠ some "registered nodeclaim" →
        ∀ n, (ParseKarpenterLogs dtParse line st).1.k8snm n = st.k8snm n) := by
  refine ⟨((effectFor dtParse st line).ncWrite.map Prod.fst).getD "",
          ((effectFor dtParse st line).nmWrite.map Prod.fst).getD "", ?_, ?_, ?_⟩
  · intro k hk
    rw [parse_fst]
    cases h : (effectFor dtParse st line).ncWrite with
    | none => rw [applyEffect_ncmap_none st _ h]
    | some kv =>
        rw [applyEffect_ncmap_some st _ kv h]
        rw [h] at hk
        simp at hk
        exact if_neg hk
  · intro n hn
    rw [parse_fst]
    cases h : (effectFor dtParse st line).nmWrite with
    | none => rw [applyEffect_k8snm_none st _ h]
    | some kv =>
        rw [applyEffect_k8snm_some st _ kv h]
        rw [h] at hn
        simp at hn
        exact if_neg hn
  · intro hm n
    rw [parse_fst, applyEffect_k8snm_none st _ (effect_nmWrite_none dtParse st line hm)]

/-- C4: a line whose message kind is not "created nodeclaim" never changes
which nodeclaim ids are present in the registry. -/
theorem non_created_preserves_ids (dtParse : String → Option Int) (line : LogLine)
    (st : ParserState) (k : String)
    (hm : line.message ≠ some "created nodeclaim") :
    ((ParseKarpenterLogs dtParse line st).1.ncmap k).isSome = (st.ncmap k).isSome := by
  rw [parse_fst]
  cases h : (effectFor dtParse st line).ncWrite with
  | none => rw [applyEffect_ncmap_none st _ h]
  | some kv =>
      rw [applyEffect_ncmap_some st _ kv h]
      dsimp only
      by_cases hk : k = kv.1
      · subst hk
        rw [if_pos rfl]
        have hex := effect_ncWrite_existing dtParse st line kv.1 kv.2 hm (by rw [h])
        simp [hex]
      · rw [if_neg hk]

/-- C4 witness: a "launched nodeclaim" line against the empty registry
leaves the id set unchanged. -/
theorem non_created_preserves_ids_witness :
    (({ message := some "launched nodeclaim",
        launchedCaps := some ("2024-01-01T00:00:05.000Z", "nc1", "aws:///us-west-2a/i-0abcd",
          "m5.large", "us-west-2a", "on-demand") } : LogLine).message ≠
        some "created nodeclaim") ∧
    ((ParseKarpenterLogs rfc3339ms
        { message := some "launched nodeclaim",
          launchedCaps := some ("2024-01-01T00:00:05.000Z", "nc1", "aws:///us-west-2a/i-0abcd",
            "m5.large", "us-west-2a", "on-demand") } emptyState).1.ncmap "nc1").isSome =
      (emptyState.ncmap "nc1").isSome :=
  ⟨by decide,
   non_created_preserves_ids rfc3339ms
     { message := some "launched nodeclaim",
       launchedCaps := some ("2024-01-01T00:00:05.000Z", "nc1", "aws:///us-west-2a/i-0abcd",
         "m5.large", "us-west-2a", "on-demand") } emptyState "nc1" (by decide)⟩

/-- C2 (code bug): the snapshot produced by `ConvertResult` for a
one-record registry is non-empty, yet feeding it to `Populatenodeclaimmap`
leaves the target registry exactly as it was (here: empty), because the
map-insertion statement of the Go function is commented out; no record is
reconstructed, whatever the serializer renders. -/
theorem convert_populate_roundtrip_drops_records (serialize : Nodeclaimstruct → String) :
    (ConvertResult serialize
        [⟨"nc1", freshRecord "2024-01-01T00:00:00.000Z" "default" "m5.large"⟩]).length = 1 ∧
    Populatenodeclaimmap (fun _ => none)
        (ConvertResult serialize
          [⟨"nc1", freshRecord "2024-01-01T00:00:00.000Z" "default" "m5.large"⟩]) "nc1" =
      none :=
  ⟨rfl, rfl⟩

/-- C3: a matching "created nodeclaim" line installs, for the captured
nodeclaim name and whatever the registry held before, a completely fresh
record whose only non-zero fields are the captured time, the captured
nodepool and the normalised instance-type list. -/
theorem created_replaces_with_fresh (dtParse : String → Option Int) (line : LogLine)
    (st : ParserState) (ct np nc its : String)
    (hm : line.message = some "created nodeclaim")
    (hc : line.createdCaps = some (ct, np, nc, its)) :
    (ParseKarpenterLogs dtParse line st).1.ncmap nc =
      some (freshRecord ct np (normalizeInstanceTypes its)) := by
  rw [parse_fst, effectFor_created dtParse st line hm]
  have he : (handleCreated line.createdCaps).ncWrite =
      some (nc, freshRecord ct np (normalizeInstanceTypes its)) := by
    rw [hc]
    rfl
  rw [applyEffect_ncmap_some st _ (nc, freshRecord ct np (normalizeInstanceTypes its)) he]
  dsimp only
  rw [if_pos rfl]

/-- C3 witness: a concrete "created nodeclaim" line with the truncated
instance-type list of the Karpenter log, against a registry that already
holds a record for the same id, which is fully replaced. -/
theorem created_replaces_with_fresh_witness :
    (ParseKarpenterLogs rfc3339ms
        { message := some "created nodeclaim",
          createdCaps := some ("2024-01-01T00:00:00.000Z", "default", "nc1",
            "c5.large, m5.large and 2 other(s)") }
        { ncmap := fun k => if k = "nc1" then
            some { freshRecord "1999-01-01T00:00:00.000Z" "old" "old" with
                     Annotation := "stale:unit", Initialized := true } else none,
          k8snm := fun _ => none }).1.ncmap "nc1" =
      some (freshRecord "2024-01-01T00:00:00.000Z" "default"
        (normalizeInstanceTypes "c5.large, m5.large and 2 other(s)")) ∧
    normalizeInstanceTypes "c5.large, m5.large and 2 other(s)" =
      "c5.large|m5.large|and2others" :=
  ⟨created_replaces_with_fresh rfc3339ms
      { message := some "created nodeclaim",
        createdCaps := some ("2024-01-01T00:00:00.000Z", "default", "nc1",
          "c5.large, m5.large and 2 other(s)") }
      { ncmap := fun k => if k = "nc1" then
          some { freshRecord "1999-01-01T00:00:00.000Z" "old" "old" with
                   Annotation := "stale:unit", Initialized := true } else none,
        k8snm := fun _ => none }
      "2024-01-01T00:00:00.000Z" "default" "nc1" "c5.large, m5.large and 2 other(s)"
      rfl rfl,
   by decide⟩

/-- C10: the "created nodeclaim" branch has no empty-name guard, so a
matching line whose NodeClaim capture is the empty string installs a fresh
record under the empty-string key. -/
theorem created_empty_name_inserts (dtParse : String → Option Int) (line : LogLine)
    (st : ParserState) (ct np its : String)
    (hm : line.message = some "created nodeclaim")
    (hc : line.createdCaps = some (ct, np, "", its)) :
    (ParseKarpenterLogs dtParse line st).1.ncmap "" =
      some (freshRecord ct np (normalizeInstanceTypes its)) := by
  rw [parse_fst, effectFor_created dtParse st line hm]
  have he : (handleCreated line.createdCaps).ncWrite =
      some ("", freshRecord ct np (normalizeInstanceTypes its)) := by
    rw [hc]
    rfl
  rw [applyEffect_ncmap_some st _ ("", freshRecord ct np (normalizeInstanceTypes its)) he]
  dsimp only
  rw [if_pos rfl]

/-- C10 witness: a concrete "created nodeclaim" line with an empty
NodeClaim capture produces a registry record keyed by the empty string. -/
theorem created_empty_name_inserts_witness :
    (ParseKarpenterLogs rfc3339ms
        { message := some "created nodeclaim",
          createdCaps := some ("2024-01-01T00:00:00.000Z", "default", "", "m5.large") }
        emptyState).1.ncmap "" =
      some (freshRecord "2024-01-01T00:00:00.000Z" "default"
        (normalizeInstanceTypes "m5.large")) :=
  created_empty_name_inserts rfc3339ms
    { message := some "created nodeclaim",
      createdCaps := some ("2024-01-01T00:00:00.000Z", "default", "", "m5.large") }
    emptyState "2024-01-01T00:00:00.000Z" "default" "m5.large" rfl rfl

/-- C1 counterexample: a second "annotated nodeclaim" event does not
append onto the stored composite; it replaces it with its own key:value
unit, and here even shortens it ("longkey:longvalue" of the first event
becomes "k:v" after the second). -/
theorem annotation_composite_replaced :
    Option.map Nodeclaimstruct.Annotation
        ((ParseKarpenterLogs rfc3339ms
            { message := some "annotated nodeclaim",
              annotatedCaps := some ("2024-01-01T00:10:00.000Z", "nc1", "longkey", "longvalue") }
            (ParseKarpenterLogs rfc3339ms
              { message := some "created nodeclaim",
                createdCaps := some ("2024-01-01T00:00:00.000Z", "default", "nc1", "m5.large") }
              emptyState).1).1.ncmap "nc1") = some "longkey:longvalue" ∧
    Option.map Nodeclaimstruct.Annotation
        ((ParseKarpenterLogs rfc3339ms
            { message := some "annotated nodeclaim",
              annotatedCaps := some ("2024-01-01T00:20:00.000Z", "nc1", "k", "v") }
            (ParseKarpenterLogs rfc3339ms
              { message := some "annotated nodeclaim",
                annotatedCaps := some ("2024-01-01T00:10:00.000Z", "nc1", "longkey", "longvalue") }
              (ParseKarpenterLogs rfc3339ms
                { message := some "created nodeclaim",
                  createdCaps := some ("2024-01-01T00:00:00.000Z", "default", "nc1", "m5.large") }
                emptyState).1).1).1.ncmap "nc1") = some "k:v" ∧
    ("k:v").length < ("longkey:longvalue").length := by
  decide

/-- C1 (amended): for an existing record, an "annotated nodeclaim" event
sets the annotation composite to exactly the key:value unit of that event,
and a tier-1 "tainted node" event sets the taint composite to exactly the
key:value:effect unit of that event — last write wins, the previous
composite is discarded. -/
theorem composite_last_write_wins (dtParse : String → Option Int) (st : ParserState)
    (la lt : LogLine) (ta nca keya vala tb ncb keyb valb effb : String)
    (ea eb : Nodeclaimstruct)
    (hma : la.message = some "annotated nodeclaim")
    (hca : la.annotatedCaps = some (ta, nca, keya, vala))
    (hna : nca ≠ "") (hea : st.ncmap nca = some ea)
    (hmb : lt.message = some "tainted node")
    (hcb : lt.taintedV11Caps = some (tb, ncb, keyb, valb, effb))
    (hnb : ncb ≠ "") (heb : st.ncmap ncb = some eb) :
    (ParseKarpenterLogs dtParse la st).1.ncmap nca =
      some { ea with Annotationtime := ta, Annotation := keya ++ ":" ++ vala } ∧
    (ParseKarpenterLogs dtParse lt st).1.ncmap ncb =
      some { eb with Tainttime := tb, Taint := keyb ++ ":" ++ valb ++ ":" ++ effb } := by
  constructor
  · rw [parse_fst, effectFor_annotated dtParse st la hma]
    have he : (handleAnnotated st la.annotatedCaps).ncWrite =
        some (nca, { ea with Annotationtime := ta, Annotation := keya ++ ":" ++ vala }) := by
      rw [hca]
      unfold handleAnnotated
      dsimp only
      rw [if_neg hna, hea]
    rw [applyEffect_ncmap_some st _ _ he]
    dsimp only
    rw [if_pos rfl]
  · rw [parse_fst, effectFor_tainted dtParse st lt hmb]
    have he : (handleTainted st lt).ncWrite =
        some (ncb, { eb with Tainttime := tb, Taint := keyb ++ ":" ++ valb ++ ":" ++ effb }) := by
      unfold handleTainted
      rw [hcb]
      dsimp only
      rw [if_neg hnb, heb]
    rw [applyEffect_ncmap_some st _ _ he]
    dsimp only
    rw [if_pos rfl]

/-- C1 witness: concrete annotated and tainted events against a registry
holding a fresh record, yielding exactly the key:value and
key:value:effect units of the events. -/
theorem composite_last_write_wins_witness :
    (ParseKarpenterLogs rfc3339ms
        { message := some "annotated nodeclaim",
          annotatedCaps := some ("2024-01-01T00:10:00.000Z", "nc1",
            "karpenter.sh/disruption", "disrupting") }
        { ncmap := fun k => if k = "nc1" then
            some (freshRecord "2024-01-01T00:00:00.000Z" "default" "m5.large") else none,
          k8snm := fun _ => none }).1.ncmap "nc1" =
      some { freshRecord "2024-01-01T00:00:00.000Z" "default" "m5.large" with
               Annotationtime := "2024-01-01T00:10:00.000Z",
               Annotation := "karpenter.sh/disruption" ++ ":" ++ "disrupting" } ∧
    (ParseKarpenterLogs rfc3339ms
        { message := some "tainted node",
          taintedV11Caps := some ("2024-01-01T00:11:00.000Z", "nc1",
            "karpenter.sh/disrupted", "", "NoSchedule") }
        { ncmap := fun k => if k = "nc1" then
            some (freshRecord "2024-01-01T00:00:00.000Z" "default" "m5.large") else none,
          k8snm := fun _ => none }).1.ncmap "nc1" =
      some { freshRecord "2024-01-01T00:00:00.000Z" "default" "m5.large" with
               Tainttime := "2024-01-01T00:11:00.000Z",
               Taint := "karpenter.sh/disrupted" ++ ":" ++ "" ++ ":" ++ "NoSchedule" } :=
  composite_last_write_wins rfc3339ms
    { ncmap := fun k => if k = "nc1" then
        some (freshRecord "2024-01-01T00:00:00.000Z" "default" "m5.large") else none,
      k8snm := fun _ => none }
    { message := some "annotated nodeclaim",
      annotatedCaps := some ("2024-01-01T00:10:00.000Z", "nc1",
        "karpenter.sh/disruption", "disrupting") }
    { message := some "tainted node",
      taintedV11Caps := some ("2024-01-01T00:11:00.000Z", "nc1",
        "karpenter.sh/disrupted", "", "NoSchedule") }
    "2024-01-01T00:10:00.000Z" "nc1" "karpenter.sh/disruption" "disrupting"
    "2024-01-01T00:11:00.000Z" "nc1" "karpenter.sh/disrupted" "" "NoSchedule"
    (freshRecord "2024-01-01T00:00:00.000Z" "default" "m5.large")
    (freshRecord "2024-01-01T00:00:00.000Z" "default" "m5.large")
    rfl rfl (by decide) (by decide) rfl rfl (by decide) (by decide)

theorem handleLaunched_absent (st : ParserState) (t nc pid ity zone cty : String)
    (hne : nc ≠ "") (hab : st.ncmap nc = none) :
    handleLaunched st (some (t, nc, pid, ity, zone, cty)) = {} := by
  unfold handleLaunched
  dsimp only
  rw [if_neg hne, hab]

theorem handleRegistered_absent (st : ParserState) (t nc nn : String)
    (hne : nc ≠ "") (hab : st.ncmap nc = none) :
    handleRegistered st (some (t, nc, nn)) = {} := by
  unfold handleRegistered
  dsimp only
  rw [if_neg hne, hab]

theorem handleInitialized_absent (dtParse : String → Option Int) (st : ParserState)
    (t nc : String) (hne : nc ≠ "") (hab : st.ncmap nc = none) :
    handleInitialized dtParse st (some (t, nc)) = {} := by
  unfold handleInitialized
  dsimp only
  rw [if_neg hne, hab]

theorem handleDisrupting_absent (st : ParserState) (t reason decision dnc rnc pc nc : String)
    (hne : nc ≠ "") (hab : st.ncmap nc = none) :
    handleDisrupting st (some (t, reason, decision, dnc, rnc, pc, nc)) = {} := by
  unfold handleDisrupting
  dsimp only
  rw [if_neg hne, hab]

theorem handleInterruption_absent (st : ParserState) (t kind nc : String)
    (hne : nc ≠ "") (hab : st.ncmap nc = none) :
    handleInterruption st (some (t, kind, nc)) = {} := by
  unfold handleInterruption
  dsimp only
  rw [if_neg hne, hab]

theorem handleAnnotated_absent (st : ParserState) (t nc key val : String)
    (hne : nc ≠ "") (hab : st.ncmap nc = none) :
    handleAnnotated st (some (t, nc, key, val)) = {} := by
  unfold handleAnnotated
  dsimp only
  rw [if_neg hne, hab]

theorem handleDeleted_absent (dtParse : String → Option Int) (st : ParserState)
    (t nc : String) (hne : nc ≠ "") (hab : st.ncmap nc = none) :
    handleDeleted dtParse st (some (t, nc)) = {} := by
  unfold handleDeleted
  dsimp only
  rw [if_neg hne, hab]

theorem handleTainted_unresolved_no_writes (st : ParserState) (line : LogLine)
    (h : (match line.taintedV11Caps with
          | some (_, nc, _, _, _) => nc != "" && (st.ncmap nc).isNone
          | none =>
            match line.taintedV10Caps with
            | some (_, nn, _, _, _) =>
                nn != "" &&
                  (match st.k8snm nn with
                   | some nc => (st.ncmap nc).isNone
                   | none => true)
            | none =>
              match line.taintedV037Caps with
              | some (_, nn) =>
                  nn != "" &&
                    (match st.k8snm nn with
                     | some nc => (st.ncmap nc).isNone
                     | none => true)
              | none => false) = true) :
    (handleTainted st line).ncWrite = none ∧ (handleTainted st line).nmWrite = none := by
  unfold handleTainted
  cases h1 : line.taintedV11Caps with
  | some c =>
      obtain ⟨t, nc, key, val, eff⟩ := c
      rw [h1] at h
      simp only [bne_iff_ne, Bool.and_eq_true, decide_eq_true_eq,
        Option.isNone_iff_eq_none] at h
      obtain ⟨hne, hab⟩ := h
      dsimp only
      rw [if_neg hne, hab]
      exact ⟨rfl, rfl⟩
  | none =>
      rw [h1] at h
      cases h2 : line.taintedV10Caps with
      | some c =>
          obtain ⟨t, nn, key, val, eff⟩ := c
          rw [h2] at h
          simp only [bne_iff_ne, Bool.and_eq_true, decide_eq_true_eq] at h
          obtain ⟨hne, hrest⟩ := h
          cases h3 : st.k8snm nn with
          | some nc =>
              rw [h3] at hrest
              simp only [Option.isNone_iff_eq_none] at hrest
              dsimp only
              rw [if_neg hne, h3]
              dsimp only
              rw [hrest]
              exact ⟨rfl, rfl⟩
          | none =>
              dsimp only
              rw [if_neg hne, h3]
              exact ⟨rfl, rfl⟩
      | none =>
          rw [h2] at h
          cases h3 : line.taintedV037Caps with
          | some c =>
              obtain ⟨t, nn⟩ := c
              rw [h3] at h
              simp only [bne_iff_ne, Bool.and_eq_true, decide_eq_true_eq] at h
              obtain ⟨hne, hrest⟩ := h
              cases h4 : st.k8snm nn with
              | some nc =>
                  rw [h4] at hrest
                  simp only [Option.isNone_iff_eq_none] at hrest
                  dsimp only
                  rw [if_neg hne, h4]
                  dsimp only
                  rw [hrest]
                  exact ⟨rfl, rfl⟩
              | none =>
                  dsimp only
                  rw [if_neg hne, h4]
                  exact ⟨rfl, rfl⟩
          | none =>
              rw [h3] at h
              cases h

/-- C8 (amended): a line of any kind that requires an existing record,
whose nodeclaim cannot be resolved (id absent from the registry, or node
name absent from the secondary index, or resolving to an absent record),
is dropped without creating or mutating any registry record or
secondary-index entry.  (The claimed diagnostic does not hold in general:
see the counterexample.) -/
theorem unresolved_required_drops_line (dtParse : String → Option Int) (st : ParserState)
    (line : LogLine) (h : unresolvedRequired st line = true) :
    (ParseKarpenterLogs dtParse line st).1 = st := by
  rw [parse_fst]
  cases hm : line.message with
  | none =>
      unfold unresolvedRequired at h
      rw [hm] at h
      cases h
  | some msg =>
      unfold unresolvedRequired at h
      rw [hm] at h
      dsimp only at h
      split_ifs at h with h1 h2 h3 h4 h5 h6 h7 h8
      · rw [effectFor_launched dtParse st line (by rw [hm, h1])]
        cases hc : line.launchedCaps with
        | none => rw [hc] at h; cases h
        | some c =>
            obtain ⟨t, nc, pid, ity, zone, cty⟩ := c
            rw [hc] at h
            simp only [bne_iff_ne, Bool.and_eq_true, decide_eq_true_eq,
              Option.isNone_iff_eq_none] at h
            rw [handleLaunched_absent st t nc pid ity zone cty h.1 h.2]
            exact applyEffect_no_writes st _ rfl rfl
      · rw [effectFor_registered dtParse st line (by rw [hm, h2])]
        cases hc : line.registeredCaps with
        | none => rw [hc] at h; cases h
        | some c =>
            obtain ⟨t, nc, nn⟩ := c
            rw [hc] at h
            simp only [bne_iff_ne, Bool.and_eq_true, decide_eq_true_eq,
              Option.isNone_iff_eq_none] at h
            rw [handleRegistered_absent st t nc nn h.1 h.2]
            exact applyEffect_no_writes st _ rfl rfl
      · rw [effectFor_initialized dtParse st line (by rw [hm, h3])]
        cases hc : line.initializedCaps with
        | none => rw [hc] at h; cases h
        | some c =>
            obtain ⟨t, nc⟩ := c
            rw [hc] at h
            simp only [bne_iff_ne, Bool.and_eq_true, decide_eq_true_eq,
              Option.isNone_iff_eq_none] at h
            rw [handleInitialized_absent dtParse st t nc h.1 h.2]
            exact applyEffect_no_writes st _ rfl rfl
      · rw [effectFor_disrupting dtParse st line (by rw [hm, h4])]
        cases hc : line.disruptingCaps with
        | none => rw [hc] at h; cases h
        | some c =>
            obtain ⟨t, reason, decision, dnc, rnc, pc, nc⟩ := c
            rw [hc] at h
            simp only [bne_iff_ne, Bool.and_eq_true, decide_eq_true_eq,
              Option.isNone_iff_eq_none] at h
            rw [handleDisrupting_absent st t reason decision dnc rnc pc nc h.1 h.2]
            exact applyEffect_no_writes st _ rfl rfl
      · rw [effectFor_interruption dtParse st line (by rw [hm, h5])]
        cases hc : line.interruptionCaps with
        | none => rw [hc] at h; cases h
        | some c =>
            obtain ⟨t, kind, nc⟩ := c
            rw [hc] at h
            simp only [bne_iff_ne, Bool.and_eq_true, decide_eq_true_eq,
              Option.isNone_iff_eq_none] at h
            rw [handleInterruption_absent st t kind nc h.1 h.2]
            exact applyEffect_no_writes st _ rfl rfl
      · rw [effectFor_annotated dtParse st line (by rw [hm, h6])]
        cases hc : line.annotatedCaps with
        | none => rw [hc] at h; cases h
        | some c =>
            obtain ⟨t, nc, key, val⟩ := c
            rw [hc] at h
            simp only [bne_iff_ne, Bool.and_eq_true, decide_eq_true_eq,
              Option.isNone_iff_eq_none] at h
            rw [handleAnnotated_absent st t nc key val h.1 h.2]
            exact applyEffect_no_writes st _ rfl rfl
      · rw [effectFor_tainted dtParse st line (by rw [hm, h7])]
        have hw := handleTainted_unresolved_no_writes st line h
        exact applyEffect_no_writes st _ hw.1 hw.2
      · rw [effectFor_deleted dtParse st line (by rw [hm, h8])]
        cases hc : line.deletedCaps with
        | none => rw [hc] at h; cases h
        | some c =>
            obtain ⟨t, nc⟩ := c
            rw [hc] at h
            simp only [bne_iff_ne, Bool.and_eq_true, decide_eq_true_eq,
              Option.isNone_iff_eq_none] at h
            rw [handleDeleted_absent dtParse st t nc h.1 h.2]
            exact applyEffect_no_writes st _ rfl rfl

/-- C8 witness: a "registered nodeclaim" line for an id absent from the
registry leaves the state unchanged. -/
theorem unresolved_required_drops_line_witness :
    (ParseKarpenterLogs rfc3339ms
        { message := some "registered nodeclaim",
          registeredCaps := some ("2024-01-01T00:00:30.000Z", "ghost", "ip-10-0-0-1") }
        emptyState).1 = emptyState :=
  unresolved_required_drops_line rfc3339ms emptyState
    { message := some "registered nodeclaim",
      registeredCaps := some ("2024-01-01T00:00:30.000Z", "ghost", "ip-10-0-0-1") }
    (by decide)

/-- C8 counterexample: a "launched nodeclaim" line whose id is absent from
the registry is an unresolved reference, yet the call prints no diagnostic
at all (the Go branch has no else on the registry lookup); the line is
dropped silently. -/
theorem launched_missing_id_silent :
    unresolvedRequired emptyState
        { message := some "launched nodeclaim",
          launchedCaps := some ("2024-01-01T00:00:05.000Z", "orphan",
            "aws:///us-west-2a/i-0aaa", "m5.large", "us-west-2a", "spot") } = true ∧
    (ParseKarpenterLogs rfc3339ms
        { message := some "launched nodeclaim",
          launchedCaps := some ("2024-01-01T00:00:05.000Z", "orphan",
            "aws:///us-west-2a/i-0aaa", "m5.large", "us-west-2a", "spot") }
        emptyState).2 = [] ∧
    (ParseKarpenterLogs rfc3339ms
        { message := some "launched nodeclaim",
          launchedCaps := some ("2024-01-01T00:00:05.000Z", "orphan",
            "aws:///us-west-2a/i-0aaa", "m5.large", "us-west-2a", "spot") }
        emptyState).1.ncmap "orphan" = none := by
  decide

/-- C6 counterexample: with the non-empty but unparseable created endpoint
"garbage" and a parseable initialized endpoint, the derived nodereadytime
is not the zero duration: the ignored parse error leaves the created
endpoint at the zero time, and the difference clamps to the maximum
duration. -/
theorem parse_failure_duration_not_zero :
    rfc3339ms "garbage" = none ∧
    Option.map Nodeclaimstruct.Createdtime
        ((ParseKarpenterLogs rfc3339ms
            { message := some "initialized nodeclaim",
              initializedCaps := some ("2024-01-01T00:01:00.000Z", "nc1") }
            (ParseKarpenterLogs rfc3339ms
              { message := some "created nodeclaim",
                createdCaps := some ("garbage", "default", "nc1", "m5.large") }
              emptyState).1).1.ncmap "nc1") = some "garbage" ∧
    Option.map Nodeclaimstruct.Nodereadytime
        ((ParseKarpenterLogs rfc3339ms
            { message := some "initialized nodeclaim",
              initializedCaps := some ("2024-01-01T00:01:00.000Z", "nc1") }
            (ParseKarpenterLogs rfc3339ms
              { message := some "created nodeclaim",
                createdCaps := some ("garbage", "default", "nc1", "m5.large") }
              emptyState).1).1.ncmap "nc1") = some maxDuration ∧
    maxDuration ≠ 0 := by
  decide

/-- C6 (amended): a derived duration is computed only when both endpoint
strings are non-empty — an empty endpoint leaves the field unchanged (zero
if never set).  When both endpoints are non-empty, the field is set to end
minus start where each endpoint is the ignored-error parse result (zero
time on failure), clamped to the duration range; a single unparseable
endpoint therefore yields an arbitrary nonzero value, not zero. -/
theorem duration_endpoint_guards (dtParse : String → Option Int) (st : ParserState)
    (li ld : LogLine) (ti nci td ncd : String) (e f : Nodeclaimstruct)
    (hmi : li.message = some "initialized nodeclaim")
    (hci : li.initializedCaps = some (ti, nci))
    (hni : nci ≠ "") (hti : ti ≠ "") (hei : st.ncmap nci = some e)
    (hmd : ld.message = some "deleted nodeclaim")
    (hcd : ld.deletedCaps = some (td, ncd))
    (hnd : ncd ≠ "") (htd : td ≠ "") (hed : st.ncmap ncd = some f) :
    Option.map Nodeclaimstruct.Nodereadytime ((ParseKarpenterLogs dtParse li st).1.ncmap nci) =
      some (if e.Createdtime = "" then e.Nodereadytime
            else subClamped (parseT dtParse ti) (parseT dtParse e.Createdtime)) ∧
    Option.map Nodeclaimstruct.Nodelifecycletime ((ParseKarpenterLogs dtParse ld st).1.ncmap ncd) =
      some (if f.Createdtime = "" then f.Nodelifecycletime
            else subClamped (parseT dtParse td) (parseT dtParse f.Createdtime)) ∧
    Option.map Nodeclaimstruct.Nodeterminationtime ((ParseKarpenterLogs dtParse ld st).1.ncmap ncd) =
      some (if f.Annotationtime = "" then f.Nodeterminationtime
            else subClamped (parseT dtParse td) (parseT dtParse f.Annotationtime)) := by
  refine ⟨?_, ?_, ?_⟩
  · rw [parse_fst, effectFor_initialized dtParse st li hmi, hci]
    by_cases hcr : e.Createdtime = ""
    · simp [handleInitialized, applyEffect, hei, if_neg hni, if_neg hti, if_pos hcr]
    · simp [handleInitialized, applyEffect, hei, if_neg hni, if_neg hti, if_neg hcr]
  · rw [parse_fst, effectFor_deleted dtParse st ld hmd, hcd]
    by_cases hcr : f.Createdtime = "" <;> by_cases han : f.Annotationtime = ""
    · simp [handleDeleted, applyEffect, hed, if_neg hnd, if_neg htd, if_pos hcr, if_pos han]
    · simp [handleDeleted, applyEffect, hed, if_neg hnd, if_neg htd, if_pos hcr, if_neg han]
    · simp [handleDeleted, applyEffect, hed, if_neg hnd, if_neg htd, if_neg hcr, if_pos han]
    · simp [handleDeleted, applyEffect, hed, if_neg hnd, if_neg htd, if_neg hcr, if_neg han]
  · rw [parse_fst, effectFor_deleted dtParse st ld hmd, hcd]
    by_cases hcr : f.Createdtime = "" <;> by_cases han : f.Annotationtime = ""
    · simp [handleDeleted, applyEffect, hed, if_neg hnd, if_neg htd, if_pos hcr, if_pos han]
    · simp [handleDeleted, applyEffect, hed, if_neg hnd, if_neg htd, if_pos hcr, if_neg han]
    · simp [handleDeleted, applyEffect, hed, if_neg hnd, if_neg htd, if_neg hcr, if_pos han]
    · simp [handleDeleted, applyEffect, hed, if_neg hnd, if_neg htd, if_neg hcr, if_neg han]

/-- C6 witness: for the record created at 2024-01-01T00:00:00.000Z, an
initialized event one minute later yields nodereadytime 60s, a deleted
event one hour later yields nodelifecycletime 3600s, and the empty
annotationtime endpoint leaves nodeterminationtime at the zero duration. -/
theorem duration_endpoint_guards_witness :
    Option.map Nodeclaimstruct.Nodereadytime
        ((ParseKarpenterLogs rfc3339ms
            { message := some "initialized nodeclaim",
              initializedCaps := some ("2024-01-01T00:01:00.000Z", "nc1") }
            (ParseKarpenterLogs rfc3339ms
              { message := some "created nodeclaim",
                createdCaps := some ("2024-01-01T00:00:00.000Z", "default", "nc1", "m5.large") }
              emptyState).1).1.ncmap "nc1") = some 60000000000 ∧
    Option.map Nodeclaimstruct.Nodelifecycletime
        ((ParseKarpenterLogs rfc3339ms
            { message := some "deleted nodeclaim",
              deletedCaps := some ("2024-01-01T01:00:00.000Z", "nc1") }
            (ParseKarpenterLogs rfc3339ms
              { message := some "created nodeclaim",
                createdCaps := some ("2024-01-01T00:00:00.000Z", "default", "nc1", "m5.large") }
              emptyState).1).1.ncmap "nc1") = some 3600000000000 ∧
    Option.map Nodeclaimstruct.Nodeterminationtime
        ((ParseKarpenterLogs rfc3339ms
            { message := some "deleted nodeclaim",
              deletedCaps := some ("2024-01-01T01:00:00.000Z", "nc1") }
            (ParseKarpenterLogs rfc3339ms
              { message := some "created nodeclaim",
                createdCaps := some ("2024-01-01T00:00:00.000Z", "default", "nc1", "m5.large") }
              emptyState).1).1.ncmap "nc1") = some 0 := by
  have h := duration_endpoint_guards rfc3339ms
    (ParseKarpenterLogs rfc3339ms
      { message := some "created nodeclaim",
        createdCaps := some ("2024-01-01T00:00:00.000Z", "default", "nc1", "m5.large") }
      emptyState).1
    { message := some "initialized nodeclaim",
      initializedCaps := some ("2024-01-01T00:01:00.000Z", "nc1") }
    { message := some "deleted nodeclaim",
      deletedCaps := some ("2024-01-01T01:00:00.000Z", "nc1") }
    "2024-01-01T00:01:00.000Z" "nc1" "2024-01-01T01:00:00.000Z" "nc1"
    (freshRecord "2024-01-01T00:00:00.000Z" "default" "m5.large")
    (freshRecord "2024-01-01T00:00:00.000Z" "default" "m5.large")
    rfl rfl (by decide) (by decide) (by decide)
    rfl rfl (by decide) (by decide) (by decide)
  exact ⟨h.1.trans (by decide), h.2.1.trans (by decide), h.2.2.trans (by decide)⟩

/-- C5: for the sequence created, launched, registered, initialized,
deleted on one id with non-empty, parseable, monotonically increasing
timestamps (within the duration range), the final record has
nodereadytime = initializedtime - createdtime at least zero (with its
exact seconds value) and nodelifecycletime = deletedtime - createdtime at
least zero. -/
theorem lifecycle_sequence_durations (dtParse : String → Option Int) (st : ParserState)
    (nc ct np its lt pid ity zone cty rt nn ti td : String) (a b c : Int)
    (hnc : nc ≠ "") (hct : ct ≠ "") (hti : ti ≠ "") (htd : td ≠ "")
    (hpc : dtParse ct = some a) (hpi : dtParse ti = some b) (hpd : dtParse td = some c)
    (hab : a ≤ b) (hbc : b ≤ c)
    (hra : b - a ≤ maxDuration) (hrc : c - a ≤ maxDuration) :
    ∃ r,
      (ParseKarpenterLogs dtParse
          { message := some "deleted nodeclaim", deletedCaps := some (td, nc) }
          (ParseKarpenterLogs dtParse
            { message := some "initialized nodeclaim", initializedCaps := some (ti, nc) }
            (ParseKarpenterLogs dtParse
              { message := some "registered nodeclaim", registeredCaps := some (rt, nc, nn) }
              (ParseKarpenterLogs dtParse
                { message := some "launched nodeclaim",
                  launchedCaps := some (lt, nc, pid, ity, zone, cty) }
                (ParseKarpenterLogs dtParse
                  { message := some "created nodeclaim",
                    createdCaps := some (ct, np, nc, its) }
                  st).1).1).1).1).1.ncmap nc = some r ∧
      r.Nodereadytime = b - a ∧ 0 ≤ r.Nodereadytime ∧
      r.Nodereadytimesec = durSeconds (b - a) ∧
      r.Nodelifecycletime = c - a ∧ 0 ≤ r.Nodelifecycletime := by
  have hpa : parseT dtParse ct = a := by rw [parseT, hpc]; rfl
  have hpb : parseT dtParse ti = b := by rw [parseT, hpi]; rfl
  have hpcd : parseT dtParse td = c := by rw [parseT, hpd]; rfl
  have hba : 0 ≤ b - a := sub_nonneg.mpr hab
  have hca : 0 ≤ c - a := sub_nonneg.mpr (le_trans hab hbc)
  have hminle : minDuration ≤ (0 : Int) := by norm_num [minDuration]
  have hsub1 : subClamped b a = b - a := by
    unfold subClamped
    rw [if_neg (not_lt.mpr hra), if_neg (not_lt.mpr (le_trans hminle hba))]
  have hsub2 : subClamped c a = c - a := by
    unfold subClamped
    rw [if_neg (not_lt.mpr hrc), if_neg (not_lt.mpr (le_trans hminle hca))]
  have h1 : (ParseKarpenterLogs dtParse
      { message := some "created nodeclaim", createdCaps := some (ct, np, nc, its) }
      st).1.ncmap nc = some (freshRecord ct np (normalizeInstanceTypes its)) := by
    rw [parse_fst, effectFor_created dtParse st _ rfl]
    simp [handleCreated, applyEffect]
  have h2 : (ParseKarpenterLogs dtParse
      { message := some "launched nodeclaim",
        launchedCaps := some (lt, nc, pid, ity, zone, cty) }
      (ParseKarpenterLogs dtParse
        { message := some "created nodeclaim", createdCaps := some (ct, np, nc, its) }
        st).1).1.ncmap nc =
      some { freshRecord ct np (normalizeInstanceTypes its) with
               Launchedtime := lt, Providerid := lastSegment pid, Instancetype := ity,
               Zone := zone, Capacitytype := cty } := by
    rw [parse_fst, effectFor_launched dtParse _ _ rfl]
    simp [handleLaunched, applyEffect, h1, if_neg hnc]
  have h3 : (ParseKarpenterLogs dtParse
      { message := some "registered nodeclaim", registeredCaps := some (rt, nc, nn) }
      (ParseKarpenterLogs dtParse
        { message := some "launched nodeclaim",
          launchedCaps := some (lt, nc, pid, ity, zone, cty) }
        (ParseKarpenterLogs dtParse
          { message := some "created nodeclaim", createdCaps := some (ct, np, nc, its) }
          st).1).1).1.ncmap nc =
      some { freshRecord ct np (normalizeInstanceTypes its) with
               Launchedtime := lt, Providerid := lastSegment pid, Instancetype := ity,
               Zone := zone, Capacitytype := cty,
               Registeredtime := rt, K8snodename := nn } := by
    rw [parse_fst, effectFor_registered dtParse _ _ rfl]
    simp [handleRegistered, applyEffect, h2, if_neg hnc]
  have h4 : (ParseKarpenterLogs dtParse
      { message := some "initialized nodeclaim", initializedCaps := some (ti, nc) }
      (ParseKarpenterLogs dtParse
        { message := some "registered nodeclaim", registeredCaps := some (rt, nc, nn) }
        (ParseKarpenterLogs dtParse
          { message := some "launched nodeclaim",
            launchedCaps := some (lt, nc, pid, ity, zone, cty) }
          (ParseKarpenterLogs dtParse
            { message := some "created nodeclaim", createdCaps := some (ct, np, nc, its) }
            st).1).1).1).1.ncmap nc =
      some { freshRecord ct np (normalizeInstanceTypes its) with
               Launchedtime := lt, Providerid := lastSegment pid, Instancetype := ity,
               Zone := zone, Capacitytype := cty,
               Registeredtime := rt, K8snodename := nn,
               Initializedtime := ti,
               Nodereadytime := subClamped (parseT dtParse ti) (parseT dtParse ct),
               Nodereadytimesec := durSeconds (subClamped (parseT dtParse ti) (parseT dtParse ct)),
               Initialized := true } := by
    rw [parse_fst, effectFor_initialized dtParse _ _ rfl]
    simp [handleInitialized, applyEffect, h3, if_neg hnc, if_neg hti, if_neg hct, freshRecord]
  have h5 : (ParseKarpenterLogs dtParse
      { message := some "deleted nodeclaim", deletedCaps := some (td, nc) }
      (ParseKarpenterLogs dtParse
        { message := some "initialized nodeclaim", initializedCaps := some (ti, nc) }
        (ParseKarpenterLogs dtParse
          { message := some "registered nodeclaim", registeredCaps := some (rt, nc, nn) }
          (ParseKarpenterLogs dtParse
            { message := some "launched nodeclaim",
              launchedCaps := some (lt, nc, pid, ity, zone, cty) }
            (ParseKarpenterLogs dtParse
              { message := some "created nodeclaim", createdCaps := some (ct, np, nc, its) }
              st).1).1).1).1).1.ncmap nc =
      some { freshRecord ct np (normalizeInstanceTypes its) with
               Launchedtime := lt, Providerid := lastSegment pid, Instancetype := ity,
               Zone := zone, Capacitytype := cty,
               Registeredtime := rt, K8snodename := nn,
               Initializedtime := ti,
               Nodereadytime := subClamped (parseT dtParse ti) (parseT dtParse ct),
               Nodereadytimesec := durSeconds (subClamped (parseT dtParse ti) (parseT dtParse ct)),
               Initialized := true,
               Deletedtime := td,
               Nodelifecycletime := subClamped (parseT dtParse td) (parseT dtParse ct),
               Nodelifecycletimesec := durSeconds (subClamped (parseT dtParse td) (parseT dtParse ct)),
               Deleted := true } := by
    rw [parse_fst, effectFor_deleted dtParse _ _ rfl]
    simp [handleDeleted, applyEffect, h4, if_neg hnc, if_neg htd, if_neg hct, freshRecord]
  refine ⟨_, h5, ?_, ?_, ?_, ?_, ?_⟩
  · show subClamped (parseT dtParse ti) (parseT dtParse ct) = b - a
    rw [hpa, hpb, hsub1]
  · show (0 : Int) ≤ subClamped (parseT dtParse ti) (parseT dtParse ct)
    rw [hpa, hpb, hsub1]
    exact hba
  · show durSeconds (subClamped (parseT dtParse ti) (parseT dtParse ct)) = durSeconds (b - a)
    rw [hpa, hpb, hsub1]
  · show subClamped (parseT dtParse td) (parseT dtParse ct) = c - a
    rw [hpa, hpcd, hsub2]
  · show (0 : Int) ≤ subClamped (parseT dtParse td) (parseT dtParse ct)
    rw [hpa, hpcd, hsub2]
    exact hca

/-- C5 witness: the spec example — id default-abc1, createdtime
2024-01-01T00:00:00.000Z, initializedtime 2024-01-01T00:01:00.000Z —
gives nodereadytime 60 seconds (60000000000 ns) and 60.0 in the seconds
field; a deletion one hour after creation gives nodelifecycletime 3600
seconds. -/
theorem lifecycle_sequence_durations_witness :
    ∃ r,
      (ParseKarpenterLogs rfc3339ms
          { message := some "deleted nodeclaim",
            deletedCaps := some ("2024-01-01T01:00:00.000Z", "default-abc1") }
          (ParseKarpenterLogs rfc3339ms
            { message := some "initialized nodeclaim",
              initializedCaps := some ("2024-01-01T00:01:00.000Z", "default-abc1") }
            (ParseKarpenterLogs rfc3339ms
              { message := some "registered nodeclaim",
                registeredCaps := some ("2024-01-01T00:00:30.000Z", "default-abc1", "ip-10-0-0-1") }
              (ParseKarpenterLogs rfc3339ms
                { message := some "launched nodeclaim",
                  launchedCaps := some ("2024-01-01T00:00:05.000Z", "default-abc1",
                    "aws:///us-west-2a/i-0abcd", "m5.large", "us-west-2a", "on-demand") }
                (ParseKarpenterLogs rfc3339ms
                  { message := some "created nodeclaim",
                    createdCaps := some ("2024-01-01T00:00:00.000Z", "default", "default-abc1",
                      "m5.large") }
                  emptyState).1).1).1).1).1.ncmap "default-abc1" = some r ∧
      r.Nodereadytime = 60000000000 ∧ 0 ≤ r.Nodereadytime ∧
      r.Nodereadytimesec = 60 ∧
      r.Nodelifecycletime = 3600000000000 ∧ 0 ≤ r.Nodelifecycletime := by
  obtain ⟨r, h0, h1, h2, h3, h4, h5⟩ := lifecycle_sequence_durations rfc3339ms emptyState
    "default-abc1" "2024-01-01T00:00:00.000Z" "default" "m5.large"
    "2024-01-01T00:00:05.000Z" "aws:///us-west-2a/i-0abcd" "m5.large" "us-west-2a" "on-demand"
    "2024-01-01T00:00:30.000Z" "ip-10-0-0-1"
    "2024-01-01T00:01:00.000Z" "2024-01-01T01:00:00.000Z"
    63866102400000000000 63866102460000000000 63866106000000000000
    (by decide) (by decide) (by decide) (by decide)
    (by decide) (by decide) (by decide)
    (by norm_num) (by norm_num)
    (by norm_num [maxDuration]) (by norm_num [maxDuration])
  refine ⟨r, h0, ?_, h2, ?_, ?_, h5⟩
  · rw [h1]
    norm_num
  · rw [h3]
    norm_num [durSeconds]
  · rw [h4]
    norm_num

theorem insertOrd_perm (x : keyvalue) :
    ∀ l : List keyvalue, List.Perm (insertOrd x l) (x :: l)
  | [] => List.Perm.refl _
  | y :: ys => by
      unfold insertOrd
      split
      · exact List.Perm.refl _
      · exact ((insertOrd_perm x ys).cons y).trans (List.Perm.swap x y ys)

theorem insertOrd_pairwise (x : keyvalue) :
    ∀ l : List keyvalue,
      l.Pairwise (fun a b => a.value.Createdtime ≤ b.value.Createdtime) →
      (insertOrd x l).Pairwise (fun a b => a.value.Createdtime ≤ b.value.Createdtime)
  | [], _ => by simp [insertOrd]
  | y :: ys, h => by
      rcases List.pairwise_cons.mp h with ⟨hy, hys⟩
      unfold insertOrd
      split
      · rename_i hlt
        refine List.pairwise_cons.mpr ⟨?_, h⟩
        intro z hz
        rcases List.mem_cons.mp hz with rfl | hz
        · exact le_of_lt hlt
        · exact le_trans (le_of_lt hlt) (hy z hz)
      · rename_i hnlt
        refine List.pairwise_cons.mpr ⟨?_, insertOrd_pairwise x ys hys⟩
        intro z hz
        rcases List.mem_cons.mp ((insertOrd_perm x ys).mem_iff.mp hz) with rfl | hz
        · exact le_of_not_lt hnlt
        · exact hy z hz

theorem insertOrd_filter (x : keyvalue) (t : String) :
    ∀ l : List keyvalue,
      l.Pairwise (fun a b => a.value.Createdtime ≤ b.value.Createdtime) →
      (insertOrd x l).filter (fun y => y.value.Createdtime == t) =
        l.filter (fun y => y.value.Createdtime == t) ++
          (if x.value.Createdtime == t then [x] else [])
  | [], _ => by
      by_cases hx : (x.value.Createdtime == t) = true <;>
        simp [insertOrd, List.filter_cons, hx]
  | y :: ys, h => by
      rcases List.pairwise_cons.mp h with ⟨hy, hys⟩
      unfold insertOrd
      split
      · rename_i hlt
        by_cases hx : x.value.Createdtime = t
        · have hempty : (y :: ys).filter (fun y => y.value.Createdtime == t) = [] := by
            rw [List.filter_eq_nil_iff]
            intro z hz
            simp only [beq_iff_eq]
            rcases List.mem_cons.mp hz with rfl | hz
            · intro he
              rw [he, hx] at hlt
              exact lt_irrefl t hlt
            · intro he
              have hxz : x.value.Createdtime < z.value.Createdtime :=
                lt_of_lt_of_le hlt (hy z hz)
              rw [he, hx] at hxz
              exact lt_irrefl t hxz
          simp [List.filter_cons, hx, hempty]
        · simp [List.filter_cons, hx]
      · rename_i hnlt
        have ih := insertOrd_filter x t ys hys
        by_cases hpy : y.value.Createdtime = t
        · simp [List.filter_cons, hpy, ih]
        · simp [List.filter_cons, hpy, ih]

theorem sortResult_foldl_pairwise :
    ∀ (s acc : List keyvalue),
      acc.Pairwise (fun a b => a.value.Createdtime ≤ b.value.Createdtime) →
      (s.foldl (fun acc x => insertOrd x acc) acc).Pairwise
        (fun a b => a.value.Createdtime ≤ b.value.Createdtime)
  | [], _, h => h
  | x :: s, acc, h =>
      sortResult_foldl_pairwise s (insertOrd x acc) (insertOrd_pairwise x acc h)

theorem sortResult_foldl_perm :
    ∀ (s acc : List keyvalue),
      List.Perm (s.foldl (fun acc x => insertOrd x acc) acc) (acc ++ s)
  | [], acc => by simp
  | x :: s, acc => by
      have h1 := sortResult_foldl_perm s (insertOrd x acc)
      have h2 : List.Perm (insertOrd x acc ++ s) ((x :: acc) ++ s) :=
        (insertOrd_perm x acc).append_right s
      have h3 : List.Perm ((x :: acc) ++ s) (acc ++ x :: s) := List.perm_middle.symm
      exact (h1.trans h2).trans h3

theorem sortResult_foldl_filter (t : String) :
    ∀ (s acc : List keyvalue),
      acc.Pairwise (fun a b => a.value.Createdtime ≤ b.value.Createdtime) →
      (s.foldl (fun acc x => insertOrd x acc) acc).filter
          (fun y => y.value.Createdtime == t) =
        acc.filter (fun y => y.value.Createdtime == t) ++
          s.filter (fun y => y.value.Createdtime == t)
  | [], _, _ => by simp
  | x :: s, acc, h => by
      rw [List.foldl_cons]
      rw [sortResult_foldl_filter t s (insertOrd x acc) (insertOrd_pairwise x acc h)]
      rw [insertOrd_filter x t acc h, List.filter_cons]
      by_cases hx : (x.value.Createdtime == t) = true
      · simp [hx]
      · simp [hx]

/-- C7 (amended): the exported sequence is non-decreasing under lexical
comparison of the raw createdtime text, is a permutation of the ranged
slice, and is stable with respect to that slice: records with any given
createdtime text keep the relative order of the slice the Go map range
produced.  That range order is unspecified by the language and need not be
the arrival order of the records (see the counterexample). -/
theorem sortResult_sorted_and_stable (s : List keyvalue) :
    (sortResult s).Pairwise (fun a b => a.value.Createdtime ≤ b.value.Createdtime) ∧
    List.Perm (sortResult s) s ∧
    ∀ t, (sortResult s).filter (fun y => y.value.Createdtime == t) =
      s.filter (fun y => y.value.Createdtime == t) := by
  refine ⟨?_, ?_, ?_⟩
  · exact sortResult_foldl_pairwise s [] (List.Pairwise.nil)
  · simpa using sortResult_foldl_perm s []
  · intro t
    simpa using sortResult_foldl_filter t s [] (List.Pairwise.nil)

/-- C7 counterexample: records for ids "a" and "b" share one createdtime
text and the record of "a" was created first (it arrived before "b"), yet
for the range order [b, a] — a legal iteration order of a Go map whatever
the insertion sequence was — the stable sort keeps "b" first, so equal
keys do not retain arrival order. -/
theorem sort_ties_follow_range_order_not_arrival :
    (ParseKarpenterLogs rfc3339ms
        { message := some "created nodeclaim",
          createdCaps := some ("2024-01-01T00:00:00.000Z", "default", "b", "m5.large") }
        (ParseKarpenterLogs rfc3339ms
          { message := some "created nodeclaim",
            createdCaps := some ("2024-01-01T00:00:00.000Z", "default", "a", "m5.large") }
          emptyState).1).1.ncmap "a" =
      some (freshRecord "2024-01-01T00:00:00.000Z" "default" "m5.large") ∧
    (ParseKarpenterLogs rfc3339ms
        { message := some "created nodeclaim",
          createdCaps := some ("2024-01-01T00:00:00.000Z", "default", "b", "m5.large") }
        (ParseKarpenterLogs rfc3339ms
          { message := some "created nodeclaim",
            createdCaps := some ("2024-01-01T00:00:00.000Z", "default", "a", "m5.large") }
          emptyState).1).1.ncmap "b" =
      some (freshRecord "2024-01-01T00:00:00.000Z" "default" "m5.large") ∧
    sortResult
        [⟨"b", freshRecord "2024-01-01T00:00:00.000Z" "default" "m5.large"⟩,
         ⟨"a", freshRecord "2024-01-01T00:00:00.000Z" "default" "m5.large"⟩] =
      [⟨"b", freshRecord "2024-01-01T00:00:00.000Z" "default" "m5.large"⟩,
       ⟨"a", freshRecord "2024-01-01T00:00:00.000Z" "default" "m5.large"⟩] :=
  ⟨by decide, by decide, by simp [sortResult, insertOrd]⟩

end LP4K
